import Mathlib

/-!
Shallow embedding of `src/app.py` (an arXiv feed reader with an external
summarization call), covering:

* `summarize_text` (lines 23-66): credential gate, the upstream chat-completion
  call, completion extraction, and the `except` clause that wraps and re-raises
  upstream errors;
* `fetch_arxiv_papers` (lines 68-96): feedparser entry normalization into the
  six-key paper record, with `hasattr` guards on `authors`/`tags` only, and the
  outer `except` that reports the error and returns `[]`;
* the AI-summary portion of `display_paper` (lines 134-146): how the caller
  classifies the value returned (or the exception raised) by `summarize_text`;
* the search filter in `main` (lines 186-194).

Python exceptions are modelled with `Except String`; Python `None` with
`Option.none`; the network side (the feed document, the upstream completion
service) is a parameter, since the code treats it as an opaque external effect.
-/

namespace ArxivApp

/-- Python truthiness of an optional string (`if not api_key`, `if summary`,
`if search_term`): `None` and `""` are falsy, everything else truthy. -/
def pyTruthy : Option String → Bool
  | none => false
  | some s => s != ""

/-- Behaviour of the external summarization endpoint for one call
(`client.chat.completions.create`, lines 45-59): either it answers with a
completion text, or it raises with some detail string. -/
inductive Upstream where
  | returns (content : String)
  | raises (detail : String)
deriving DecidableEq, Repr

/-- Observable network activity of one `summarize_text` call: whether the
`OpenAI(...)` client was constructed (line 39) and how many requests were
issued (line 45). -/
structure NetworkTrace where
  clientConstructed : Bool
  requests : Nat
deriving DecidableEq, Repr

/-- `summarize_text(text, api_key)`, lines 23-66.

* line 34-35: `if not api_key: return None`;
* lines 37-59: construct the client and issue one request;
* lines 62-63: on success, return the extracted completion unchanged;
* lines 65-66: `except Exception as e: raise Exception(f"智谱 API 调用失败: {str(e)}")` —
  the upstream error is caught and a wrapped exception is re-raised
  (modelled as `Except.error`), it is not converted into a return value.

The result pairs the returned value (or escaped exception) with the network
trace of the call. -/
def summarize_text (text : String) (api_key : Option String) (upstream : Upstream) :
    Except String (Option String) × NetworkTrace :=
  if pyTruthy api_key = false then
    (Except.ok none, ⟨false, 0⟩)
  else
    match text, upstream with
    | _, Upstream.returns content => (Except.ok (some content), ⟨true, 1⟩)
    | _, Upstream.raises detail =>
        (Except.error ("智谱 API 调用失败: " ++ detail), ⟨true, 1⟩)

/-- One raw feedparser entry (lines 81-89 access `entry.title`,
`entry.authors`, `entry.summary`, `entry.published`, `entry.link`,
`entry.tags`). A field the feed omitted is `none`; accessing it without a
`hasattr` guard raises `AttributeError`. `authors` is modelled as the list of
the author names, `tags` as the list of tag terms. -/
structure RawEntry where
  title : Option String
  authors : Option (List String)
  summary : Option String
  published : Option String
  link : Option String
  tags : Option (List String)
deriving DecidableEq, Repr

/-- The paper record built at lines 82-89: a dict with exactly six keys. -/
structure Paper where
  title : String
  authors : List String
  summary : String
  published_date : String
  link : String
  categories : List String
deriving DecidableEq, Repr

/-- Python attribute access `entry.<field>` without a `hasattr` guard:
raises `AttributeError` when the field is absent. -/
def getattrOrRaise (field : Option α) (name : String) : Except String α :=
  match field with
  | some v => Except.ok v
  | none => Except.error ("AttributeError: " ++ name)

/-- The per-entry record construction, lines 82-89, in the order the dict
literal evaluates its values:

* `'title': entry.title` — unguarded;
* `'authors': [...] if hasattr(entry, 'authors') else []` — guarded, defaults to `[]`;
* `'summary': entry.summary` — unguarded;
* `'published_date': entry.published` — unguarded (no `hasattr` check);
* `'link': entry.link` — unguarded;
* `'categories': entry.tags if hasattr(entry, 'tags') else []` — guarded, defaults to `[]`. -/
def normalize_entry (e : RawEntry) : Except String Paper := do
  let title ← getattrOrRaise e.title "title"
  let authors := match e.authors with
    | some names => names
    | none => []
  let summary ← getattrOrRaise e.summary "summary"
  let published ← getattrOrRaise e.published "published"
  let link ← getattrOrRaise e.link "link"
  let categories := match e.tags with
    | some ts => ts
    | none => []
  return { title := title, authors := authors, summary := summary,
           published_date := published, link := link, categories := categories }

/-- The `for entry in feed.entries` loop, lines 81-90: entries are normalized
in feed order; the first raised `AttributeError` aborts the loop (it is only
caught by the outer handler). -/
def normalize_all : List RawEntry → Except String (List Paper)
  | [] => Except.ok []
  | e :: es => do
      let p ← normalize_entry e
      let ps ← normalize_all es
      return p :: ps

/-- Outcome of `feedparser.parse(ARXIV_RSS_URL)` (line 77): a list of raw
entries, or a raised error (network failure, malformed document). -/
inductive FeedResult where
  | ok (entries : List RawEntry)
  | raises (detail : String)
deriving DecidableEq, Repr

/-- `fetch_arxiv_papers()`, lines 68-96: parse the feed and normalize every
entry; any exception in the `try` block is caught, reported once via
`st.error(f"抓取 ArXiv 论文时发生错误: {str(e)}")`, and an empty list is returned.
The second component is the reported error message (`none` when nothing was
reported). -/
def fetch_arxiv_papers (feed : FeedResult) : List Paper × Option String :=
  match feed with
  | FeedResult.raises detail =>
      ([], some ("抓取 ArXiv 论文时发生错误: " ++ detail))
  | FeedResult.ok entries =>
      match normalize_all entries with
      | Except.ok papers => (papers, none)
      | Except.error detail =>
          ([], some ("抓取 ArXiv 论文时发生错误: " ++ detail))

/-- A value of the paper dict, lines 82-89: strings for
`title`/`summary`/`published_date`/`link`, lists for `authors`/`categories`. -/
inductive FieldVal where
  | s (v : String)
  | l (v : List String)
deriving DecidableEq, Repr

/-- The paper record viewed as the Python dict built at lines 82-89: the six
keys in the literal's order, `authors` and `categories` holding lists. -/
def Paper.toDict (p : Paper) : List (String × FieldVal) :=
  [("title", FieldVal.s p.title),
   ("authors", FieldVal.l p.authors),
   ("summary", FieldVal.s p.summary),
   ("published_date", FieldVal.s p.published_date),
   ("link", FieldVal.s p.link),
   ("categories", FieldVal.l p.categories)]

/-- What the AI-summary section of `display_paper` shows, lines 134-146. -/
inductive SummaryDisplay where
  | warnNoKey
  | written (s : String)
  | warnFailed
  | errorShown (msg : String)
deriving DecidableEq, Repr

/-- The AI-summary section of `display_paper`, lines 134-146: without a key a
warning (line 136); otherwise the value returned by `summarize_text` is
written if truthy (line 142), a failure warning is shown if falsy (line 144),
and a raised exception is caught and shown via `st.error` (line 146). -/
def display_ai_summary (api_key : Option String)
    (callResult : Except String (Option String)) : SummaryDisplay :=
  if pyTruthy api_key = false then
    SummaryDisplay.warnNoKey
  else
    match callResult with
    | Except.error msg => SummaryDisplay.errorShown ("❌ " ++ msg)
    | Except.ok summary =>
        if pyTruthy summary then SummaryDisplay.written (summary.getD "")
        else SummaryDisplay.warnFailed

/-- Whether `needle` occurs at the head of `hay`. -/
def startsList (needle hay : List Char) : Bool :=
  match needle, hay with
  | [], _ => true
  | _ :: _, [] => false
  | a :: as, b :: bs => a == b && startsList as bs

/-- Whether `needle` occurs somewhere inside `hay`. -/
def occursIn (needle hay : List Char) : Bool :=
  match hay with
  | [] => startsList needle []
  | _ :: rest => startsList needle hay || occursIn needle rest

/-- Python substring test `needle in hay` on strings. -/
def strIn (needle hay : String) : Bool :=
  occursIn needle.data hay.data

/-- Python `str.lower()`: lowercase every character. -/
def pyLower (s : String) : String :=
  ⟨s.data.map Char.toLower⟩

/-- The comprehension predicate of lines 191-192:
`search_term.lower() in paper['title'].lower() or
 search_term.lower() in paper['summary'].lower()`. -/
def matchesQuery (search_term : String) (p : Paper) : Bool :=
  strIn (pyLower search_term) (pyLower p.title) ||
  strIn (pyLower search_term) (pyLower p.summary)

/-- The search filter of `main`, lines 187-193: `filtered_papers = papers`,
then, only when `search_term` is truthy, the list comprehension keeping the
matching papers in order. -/
def filter_papers (papers : List Paper) (search_term : String) : List Paper :=
  if search_term = "" then papers
  else papers.filter (matchesQuery search_term)

/-- A concrete normalized record (the entry of spec Scenario A), used to
instantiate universally quantified theorems at a concrete input. -/
def samplePaper : Paper :=
  { title := "Deep Learning for X", authors := ["Alice", "Bob"],
    summary := "We study Y", published_date := "Mon, 01 Jan 2024 00:00:00 GMT",
    link := "http://a/1", categories := [] }

/-- C1: the claim says an upstream transport/auth/service error is caught and
converted into a returned `Unavailable(UpstreamFailure(detail))` value, with no
exception escaping `summarize_text`. The code does the opposite: lines 65-66
catch the error and RE-RAISE `Exception(f"智谱 API 调用失败: {str(e)}")`, so an
exception always escapes to the caller on upstream failure (and the function
also contradicts its own docstring, which promises `None` on failure). This
theorem evaluates the embedded code at the failing inputs: with a present
credential and a raising upstream, the call ends in a raised exception
(`Except.error`), not in a returned value. -/
theorem summarize_raises_on_upstream_failure (text detail : String) :
    (summarize_text text (some "validkey") (Upstream.raises detail)).1
      = Except.error ("智谱 API 调用失败: " ++ detail) := rfl

/-- C2: with an absent (`None`) or empty credential, `summarize_text` returns
the missing-credential result (`None`, line 35) immediately, for every input
text and regardless of how the upstream would behave: no client is constructed
and zero requests are issued. -/
theorem summarize_missing_credential_no_network (text : String)
    (api_key : Option String) (upstream : Upstream)
    (h : api_key = none ∨ api_key = some "") :
    summarize_text text api_key upstream = (Except.ok none, ⟨false, 0⟩) := by
  rcases h with h | h <;> subst h <;> rfl

/-- Witness for C2 at a concrete input. -/
theorem summarize_missing_credential_no_network_witness :
    summarize_text "abc" none (Upstream.returns "hi") = (Except.ok none, ⟨false, 0⟩) :=
  summarize_missing_credential_no_network "abc" none (Upstream.returns "hi") (Or.inl rfl)

/-- C3 counterexample: an entry with `title`, `summary` and `link` present but
`published` absent makes normalization fail (line 86 accesses
`entry.published` with no `hasattr` guard), so the whole batch aborts to `[]`
— the claim that a missing `published_at` degrades to an empty-string default
is false on the code. -/
theorem normalize_missing_published_counterexample :
    normalize_entry ⟨some "Deep Learning for X", some ["Alice", "Bob"],
        some "We study Y", none, some "http://a/1", none⟩
      = Except.error "AttributeError: published" ∧
    fetch_arxiv_papers (FeedResult.ok [⟨some "Deep Learning for X",
        some ["Alice", "Bob"], some "We study Y", none, some "http://a/1", none⟩])
      = ([], some "抓取 ArXiv 论文时发生错误: AttributeError: published") :=
  ⟨rfl, rfl⟩

/-- C3 as amended: only `authors` and `categories` are guarded optional fields
— when either is absent, normalization still succeeds and yields the
empty-list default for it (lines 84 and 88); but an absent `published` field
makes the per-entry construction raise instead of defaulting. -/
theorem normalize_guarded_optional_fields (t s pub l : String)
    (as ts : Option (List String)) :
    normalize_entry ⟨some t, as, some s, some pub, some l, ts⟩
      = Except.ok ⟨t, as.getD [], s, pub, l, ts.getD []⟩ ∧
    normalize_entry ⟨some t, as, some s, none, some l, ts⟩
      = Except.error "AttributeError: published" := by
  cases as <;> cases ts <;> exact ⟨rfl, rfl⟩

/-- C4 counterexample: with a present credential, when the upstream succeeds
with the empty completion `""` (or whitespace `" "`), `summarize_text` returns
that string unchanged as a success value (lines 62-63 have no
empty/whitespace check) — it does not classify it as an unavailable result
(the code's only unavailable return value is `None`). -/
theorem summarize_empty_completion_counterexample :
    (summarize_text "abc" (some "validkey") (Upstream.returns "")).1
      = Except.ok (some "") ∧
    (summarize_text "abc" (some "validkey") (Upstream.returns " ")).1
      = Except.ok (some " ") :=
  ⟨rfl, rfl⟩

/-- C4 as amended: on upstream success `summarize_text` returns the extracted
completion verbatim, including when it is empty; the classification of an
empty summary happens only in the caller, where `display_paper` (line 141
`if summary:`) treats the empty string as a failure and shows the
`总结生成失败` warning rather than presenting it as a success. -/
theorem summarize_returns_completion_verbatim (text content : String)
    (api_key : Option String) (h : pyTruthy api_key = true) :
    (summarize_text text api_key (Upstream.returns content)).1
      = Except.ok (some content) ∧
    display_ai_summary api_key
        (summarize_text text api_key (Upstream.returns "")).1
      = SummaryDisplay.warnFailed := by
  cases api_key with
  | none => simp [pyTruthy] at h
  | some k =>
      have hk : (k != "") = true := h
      constructor
      · simp [summarize_text, pyTruthy, hk]
      · simp [summarize_text, display_ai_summary, pyTruthy, hk]

/-- Witness for the amended C4 at a concrete input. -/
theorem summarize_returns_completion_verbatim_witness :
    (summarize_text "abc" (some "validkey") (Upstream.returns "摘要：...")).1
      = Except.ok (some "摘要：...") ∧
    display_ai_summary (some "validkey")
        (summarize_text "abc" (some "validkey") (Upstream.returns "")).1
      = SummaryDisplay.warnFailed :=
  summarize_returns_completion_verbatim "abc" "摘要：..." (some "validkey") rfl

/-- C5: for a non-empty query, the filter (lines 188-193) keeps exactly the
papers whose lowercased title or lowercased summary contains the lowercased
query as a substring; the output is an order-preserving subsequence of the
input (`List.filter`, no re-sort); and any two queries equal after lowercasing
(such as "AI" and "ai") yield identical results. -/
theorem filter_nonempty_query_spec (papers : List Paper) (q : String)
    (h : q ≠ "") :
    filter_papers papers q = papers.filter (fun p =>
        strIn (pyLower q) (pyLower p.title) ||
        strIn (pyLower q) (pyLower p.summary)) ∧
    (filter_papers papers q).Sublist papers ∧
    ∀ q2, pyLower q2 = pyLower q → q2 ≠ "" →
      filter_papers papers q2 = filter_papers papers q := by
  refine ⟨?_, ?_, ?_⟩
  · simp only [filter_papers, if_neg h]
    rfl
  · unfold filter_papers
    split
    · exact List.Sublist.refl papers
    · exact List.filter_sublist papers
  · intro q2 h2 h2ne
    simp only [filter_papers, if_neg h, if_neg h2ne]
    have hm : matchesQuery q2 = matchesQuery q := by
      funext p
      simp [matchesQuery, h2]
    rw [hm]

/-- Witness for C5 at a concrete input. -/
theorem filter_nonempty_query_spec_witness :
    filter_papers [samplePaper] "AI" = [samplePaper].filter (fun p =>
        strIn (pyLower "AI") (pyLower p.title) ||
        strIn (pyLower "AI") (pyLower p.summary)) ∧
    (filter_papers [samplePaper] "AI").Sublist [samplePaper] ∧
    ∀ q2, pyLower q2 = pyLower "AI" → q2 ≠ "" →
      filter_papers [samplePaper] q2 = filter_papers [samplePaper] "AI" :=
  filter_nonempty_query_spec [samplePaper] "AI" (by decide)

/-- C6: filtering with the empty query is the identity on the paper list — the
code (line 188 `if search_term:`) never enters the filtering branch, so
`filtered_papers` stays the input list itself, in the same order. -/
theorem filter_empty_query_identity (papers : List Paper) :
    filter_papers papers "" = papers := rfl

/-- C7: the filter is idempotent — filtering an already-filtered list with the
same query changes nothing, for every query (empty or not). -/
theorem filter_idempotent (papers : List Paper) (q : String) :
    filter_papers (filter_papers papers q) q = filter_papers papers q := by
  by_cases h : q = ""
  · simp [filter_papers, h]
  · simp only [filter_papers, if_neg h]
    rw [List.filter_filter]
    simp

/-- C8 counterexample: the claim quantifies over entries whose required
fields `title`, `summary` (abstract) and `link` are present, and asserts
normalization is total there. It is not: this entry has all three present,
yet the unguarded `entry.published` access (line 86) makes the per-entry
construction raise instead of producing a record. -/
theorem normalize_not_total_without_published :
    normalize_entry ⟨some "Attention Is All You Need", none,
        some "We propose the Transformer", none, some "http://a/2", none⟩
      = Except.error "AttributeError: published" := rfl

/-- C8 as amended: on any entry whose unguarded required fields (`title`,
`summary`, `published`, `link`) are ALL present, normalization is total and
deterministic: it always succeeds and its result is uniquely determined by
the entry, carrying the entry's exact field values into the record (with the
guarded defaults for the two optional fields), so two runs on the same entry
are structurally equal. -/
theorem normalize_total_on_required_fields (e : RawEntry) (t s pub l : String)
    (ht : e.title = some t) (hs : e.summary = some s)
    (hp : e.published = some pub) (hl : e.link = some l) :
    normalize_entry e = Except.ok ⟨t, e.authors.getD [], s, pub, l, e.tags.getD []⟩ := by
  obtain ⟨et, ea, es, ep, el, etg⟩ := e
  simp only at ht hs hp hl
  subst ht hs hp hl
  cases ea <;> cases etg <;> rfl

/-- Witness for C8 at a concrete input. -/
theorem normalize_total_on_required_fields_witness :
    normalize_entry ⟨some "Deep Learning for X", some ["Alice", "Bob"],
        some "We study Y", some "Mon, 01 Jan 2024 00:00:00 GMT",
        some "http://a/1", none⟩
      = Except.ok ⟨"Deep Learning for X", ["Alice", "Bob"], "We study Y",
          "Mon, 01 Jan 2024 00:00:00 GMT", "http://a/1", []⟩ :=
  normalize_total_on_required_fields _ "Deep Learning for X" "We study Y"
    "Mon, 01 Jan 2024 00:00:00 GMT" "http://a/1" rfl rfl rfl rfl

/-- C9: `fetch_arxiv_papers` never lets an exception escape (its result type
is a plain pair, every branch returns), and whenever fetching/parsing fails —
the feed parse raises, or normalizing some entry raises — it returns the empty
paper list together with the single reported error message. -/
theorem fetch_failure_reported_and_empty (feed : FeedResult) :
    (∀ detail, feed = FeedResult.raises detail →
      fetch_arxiv_papers feed
        = ([], some ("抓取 ArXiv 论文时发生错误: " ++ detail))) ∧
    (∀ entries detail, feed = FeedResult.ok entries →
      normalize_all entries = Except.error detail →
      fetch_arxiv_papers feed
        = ([], some ("抓取 ArXiv 论文时发生错误: " ++ detail))) := by
  constructor
  · intro detail h
    subst h
    rfl
  · intro entries detail h hn
    subst h
    simp [fetch_arxiv_papers, hn]

/-- Witness for C9 at a concrete input. -/
theorem fetch_failure_reported_and_empty_witness :
    fetch_arxiv_papers (FeedResult.raises "network down")
      = ([], some ("抓取 ArXiv 论文时发生错误: " ++ "network down")) :=
  (fetch_failure_reported_and_empty (FeedResult.raises "network down")).1
    "network down" rfl

/-- C10: every record a fetch produces, viewed as the Python dict built at
lines 82-89, has exactly the six keys `title`, `authors`, `summary`,
`published_date`, `link`, `categories` in that order, and the `authors` and
`categories` entries always hold lists. -/
theorem paper_record_shape (feed : FeedResult) (p : Paper)
    (_hp : p ∈ (fetch_arxiv_papers feed).1) :
    (Paper.toDict p).map Prod.fst
        = ["title", "authors", "summary", "published_date", "link", "categories"] ∧
    (Paper.toDict p).lookup "authors" = some (FieldVal.l p.authors) ∧
    (Paper.toDict p).lookup "categories" = some (FieldVal.l p.categories) :=
  ⟨rfl, rfl, rfl⟩

/-- Witness for C10 at a concrete input. -/
theorem paper_record_shape_witness :
    (Paper.toDict ⟨"t", [], "s", "d", "l", []⟩).map Prod.fst
        = ["title", "authors", "summary", "published_date", "link", "categories"] ∧
    (Paper.toDict ⟨"t", [], "s", "d", "l", []⟩).lookup "authors"
        = some (FieldVal.l (Paper.mk "t" [] "s" "d" "l" []).authors) ∧
    (Paper.toDict ⟨"t", [], "s", "d", "l", []⟩).lookup "categories"
        = some (FieldVal.l (Paper.mk "t" [] "s" "d" "l" []).categories) :=
  paper_record_shape
    (FeedResult.ok [⟨some "t", none, some "s", some "d", some "l", none⟩])
    ⟨"t", [], "s", "d", "l", []⟩ (by decide)

end ArxivApp
